import Mathlib

/-!
Verification of the SPAM-GCS link/session-management core.

Shallow embedding of the Python sources:
  * `src/connection/mavlink_manager.py` (`ConnectionWorker`, `MavlinkManager`)
  * `src/connection/message_broker.py`  (`MessageBroker`)
  * `src/logging/mavlink_logger.py`     (`MavlinkLogger`)

Qt signal emissions are modelled as explicit event lists; wall-clock time is
passed in explicitly as a rational number; Python floats are modelled as real
numbers for the quaternion mathematics and as rationals elsewhere.
-/

/-- The Qt signals emitted by `ConnectionWorker` and `MavlinkManager`,
embedded as an explicit event type.  `linkStatusChanged` embeds
`connection_status_changed`, `errorOccurred` embeds `error_occurred`, etc. -/
inductive Event where
  | errorOccurred (msg : String)
  | connectionAttemptStarted
  | connectionAttemptFinished (ok : Bool) (msg : String)
  | linkStatusChanged (connected : Bool)
  | heartbeatReceived
  | messageReceived
  | eulerAngles
  deriving DecidableEq, Repr

/-- ASCII lowercase of one character, embedding Python's `str.lower` as it
acts on the protocol strings involved here. -/
def charLower (c : Char) : Char :=
  if 'A' ≤ c ∧ c ≤ 'Z' then Char.ofNat (c.toNat + 32) else c

/-- Python `str.lower()` over the string's characters. -/
def strLower (s : String) : String := ⟨s.data.map charLower⟩

/-- Prefix test over the string's characters (used to model how mavutil
dispatches on the scheme prefix of a connection string). -/
def strStartsWith (s pre : String) : Bool :=
  decide (s.data.take pre.data.length = pre.data)

/-- Constructor arguments of `ConnectionWorker.__init__`:
`connection_string`, `is_serial`, `baudrate`. -/
structure WorkerConf where
  connection_string : String
  is_serial : Bool
  baudrate : ℕ
  deriving DecidableEq, Repr

/-- The transport handle held in `ConnectionWorker._connection` once
`mavutil.mavlink_connection` has succeeded.  `sendFails` models whether the
underlying `mav.send` / `mav.command_long_send` call raises (transport
write failure). -/
structure Conn where
  sendFails : Bool
  deriving DecidableEq, Repr

/-- A `ConnectionWorker` as seen from the manager: its constructor
configuration, whether `stop()` has been called on it, and its
`_connection` field (set by the worker thread on open, `none` before
open and after `_cleanup`). -/
structure WorkerRec where
  conf : WorkerConf
  stopped : Bool
  connection : Option Conn
  deriving DecidableEq, Repr

/-- `ConnectionWorker.__init__`: `_connected=False`, `_connection=None`,
`_stop_requested=False`. -/
def WorkerRec.mk0 (cs : String) (is_serial : Bool) (baudrate : ℕ) : WorkerRec :=
  { conf := ⟨cs, is_serial, baudrate⟩, stopped := false, connection := none }

/-- `MavlinkManager` state: `_worker` (the at-most-one current worker
reference), `_connected`, `_connecting`.  `retired` is bookkeeping that
records every worker the manager has released via `_cleanup_worker`, so
that "the manager owns at most one live worker" is expressible over the
whole history of created workers. -/
structure MavlinkManager where
  worker : Option WorkerRec
  retired : List WorkerRec
  connected : Bool
  connecting : Bool
  deriving DecidableEq, Repr

namespace MavlinkManager

/-- `MavlinkManager.__init__`: `_worker=None`, `_connected=False`,
`_connecting=False`. -/
def init : MavlinkManager :=
  { worker := none, retired := [], connected := false, connecting := false }

/-- `MavlinkManager._cleanup_worker`: if a worker exists, stop it
(stop + bounded wait + terminate-if-needed), disconnect its signals and
drop the reference (`self._worker = None`).  The released worker is
recorded in `retired` with `stopped := true`. -/
def cleanup_worker (m : MavlinkManager) : MavlinkManager :=
  match m.worker with
  | none => m
  | some w =>
      { m with worker := none, retired := { w with stopped := true } :: m.retired }

/-- Python default of `connect_usb`'s `baudrate` parameter
(`baudrate: int = 115200`). -/
def USB_DEFAULT_BAUD : ℕ := 115200

/-- Python default of `connect_wifi`'s `port` parameter
(`port: int = 14550`). -/
def WIFI_DEFAULT_PORT : ℕ := 14550

/-- `MavlinkManager.connect_usb(port, baudrate=115200)`.  Returns the new
manager state together with the list of signals emitted by this call. -/
def connect_usb (m : MavlinkManager) (port : String) (baudrate : ℕ) :
    MavlinkManager × List Event :=
  if m.connecting then
    (m, [.errorOccurred "Connection in progress"])
  else
    let m1 := m.cleanup_worker
    ({ m1 with
        connecting := true
        worker := some (WorkerRec.mk0 port true baudrate) },
      [.connectionAttemptStarted])

/-- `connect_usb` called without a `baudrate` argument (Python applies the
default `115200`). -/
def connect_usb_default (m : MavlinkManager) (port : String) :
    MavlinkManager × List Event :=
  m.connect_usb port USB_DEFAULT_BAUD

/-- `MavlinkManager.connect_wifi(ip, port=14550, protocol="udp")`:
builds `udpin:ip:port` for UDP and `tcp:ip:port` otherwise. -/
def connect_wifi (m : MavlinkManager) (ip : String) (port : ℕ) (protocol : String) :
    MavlinkManager × List Event :=
  if m.connecting then
    (m, [.errorOccurred "Connection in progress"])
  else
    let m1 := m.cleanup_worker
    let connection_string :=
      if strLower protocol = "udp" then "udpin:" ++ ip ++ ":" ++ toString port
      else "tcp:" ++ ip ++ ":" ++ toString port
    ({ m1 with
        connecting := true
        worker := some (WorkerRec.mk0 connection_string false 115200) },
      [.connectionAttemptStarted])

/-- `connect_wifi` called without a `port` argument (Python applies the
default `14550`). -/
def connect_wifi_default_port (m : MavlinkManager) (ip : String) (protocol : String) :
    MavlinkManager × List Event :=
  m.connect_wifi ip WIFI_DEFAULT_PORT protocol

/-- `MavlinkManager._on_connection_ready(success, message)`: clears
`_connecting`; on failure tears the worker down; emits
`connection_attempt_finished`.  (On success the stream request is merely
scheduled; it does not change manager state.) -/
def on_connection_ready (m : MavlinkManager) (success : Bool) (message : String) :
    MavlinkManager × List Event :=
  let m1 := { m with connecting := false }
  let m2 := if success then m1 else m1.cleanup_worker
  (m2, [.connectionAttemptFinished success message])

/-- `MavlinkManager._on_connection_status(connected)`. -/
def on_connection_status (m : MavlinkManager) (c : Bool) :
    MavlinkManager × List Event :=
  ({ m with connected := c }, [.linkStatusChanged c])

/-- `MavlinkManager.disconnect()`: `_connecting = False`;
`_cleanup_worker()`; `_connected = False`;
`connection_status_changed.emit(False)` — the emission is unconditional. -/
def disconnect (m : MavlinkManager) : MavlinkManager × List Event :=
  let m1 := { m with connecting := false }.cleanup_worker
  ({ m1 with connected := false }, [.linkStatusChanged false])

/-- The worker thread opening (or closing) its transport: replaces the
current worker's `_connection` field.  The thread never changes the
manager's ownership bookkeeping. -/
def worker_update (m : MavlinkManager) (c : Option Conn) : MavlinkManager :=
  match m.worker with
  | none => m
  | some w => { m with worker := some { w with connection := c } }

/-- States reachable from `MavlinkManager.__init__` under the manager's
public operations, its worker-signal handlers, and the worker thread's
transport updates. -/
inductive Reachable : MavlinkManager → Prop where
  | init : Reachable init
  | usb (m : MavlinkManager) (port : String) (baud : ℕ) :
      Reachable m → Reachable (m.connect_usb port baud).1
  | wifi (m : MavlinkManager) (ip : String) (port : ℕ) (protocol : String) :
      Reachable m → Reachable (m.connect_wifi ip port protocol).1
  | ready (m : MavlinkManager) (success : Bool) (msg : String) :
      Reachable m → Reachable (m.on_connection_ready success msg).1
  | status (m : MavlinkManager) (c : Bool) :
      Reachable m → Reachable (m.on_connection_status c).1
  | disc (m : MavlinkManager) :
      Reachable m → Reachable m.disconnect.1
  | wupd (m : MavlinkManager) (c : Option Conn) :
      Reachable m → Reachable (m.worker_update c)

/-- Number of live (never-stopped) workers among every worker the manager
has ever created and still tracks. -/
def liveWorkers (m : MavlinkManager) : ℕ :=
  (m.worker.toList ++ m.retired).countP (fun w => !w.stopped)

/-- All workers the manager has released are stopped. -/
def RetiredStopped (m : MavlinkManager) : Prop :=
  ∀ w ∈ m.retired, w.stopped = true

end MavlinkManager

/-- `MessageBroker` registry state: `_subscribers` (dict from message-type
name to a set of callbacks, embedded as a total function defaulting to the
empty set for absent keys) and `_all_subscribers`.  Callbacks are
identified by natural-number handles. -/
@[ext]
structure MessageBroker where
  subscribers : String → Finset ℕ
  all_subscribers : Finset ℕ

namespace MessageBroker

/-- `MessageBroker.__init__`: empty registry. -/
def init : MessageBroker := ⟨fun _ => ∅, ∅⟩

/-- `MessageBroker.subscribe(message_type, callback)`: set-insert into the
per-type set (creating it if absent). -/
def subscribe (b : MessageBroker) (message_type : String) (callback : ℕ) :
    MessageBroker :=
  { b with subscribers := fun t =>
      if t = message_type then insert callback (b.subscribers t)
      else b.subscribers t }

/-- `MessageBroker.subscribe_all(callback)`. -/
def subscribe_all (b : MessageBroker) (callback : ℕ) : MessageBroker :=
  { b with all_subscribers := insert callback b.all_subscribers }

/-- `MessageBroker.unsubscribe(message_type, callback)`: `set.discard` from
the per-type set if the key exists. -/
def unsubscribe (b : MessageBroker) (message_type : String) (callback : ℕ) :
    MessageBroker :=
  { b with subscribers := fun t =>
      if t = message_type then (b.subscribers t).erase callback
      else b.subscribers t }

/-- `MessageBroker.unsubscribe_all(callback)`: discard from
`_all_subscribers` and from every per-type set. -/
def unsubscribe_all (b : MessageBroker) (callback : ℕ) : MessageBroker :=
  { subscribers := fun t => (b.subscribers t).erase callback
    all_subscribers := b.all_subscribers.erase callback }

/-- A `callback(message)` call either returns or raises; which one is
determined by the behaviour map `raises`. -/
def call_callback (raises : ℕ → Bool) (c : ℕ) : Except ℕ Unit :=
  if raises c then Except.error c else Except.ok ()

/-- The `publish` loop body over one collection of callbacks: each call sits
in a `try/except`, so a raising callback is still counted as invoked, its
failure is logged, and iteration continues with the next callback.  Returns
(callbacks invoked in order, failures logged). -/
def publish_loop (raises : ℕ → Bool) : List ℕ → List ℕ × List ℕ
  | [] => ([], [])
  | c :: rest =>
      let tail := publish_loop raises rest
      match call_callback raises c with
      | Except.ok _ => (c :: tail.1, tail.2)
      | Except.error e => (c :: tail.1, e :: tail.2)

/-- `MessageBroker.publish(message)`: looks up `message.get_type()`, invokes
every type-specific subscriber, then every wildcard subscriber, each under
`try/except`; `publish` itself therefore always returns normally
(`Except.ok`).  Python set iteration order is unspecified; the embedding
enumerates each set in ascending handle order. -/
def publish (b : MessageBroker) (msg_type : String) (raises : ℕ → Bool) :
    Except ℕ (List ℕ × List ℕ) :=
  let typed := publish_loop raises ((b.subscribers msg_type).sort (· ≤ ·))
  let wild := publish_loop raises (b.all_subscribers.sort (· ≤ ·))
  Except.ok (typed.1 ++ wild.1, typed.2 ++ wild.2)

end MessageBroker

/-- How the transport layer treats a connection string. -/
inductive SocketMode where
  | listen
  | connectOut
  deriving DecidableEq, Repr

/-- Modelled from the spec: `mavutil.mavlink_connection` (pymavlink, external
to src/) opens a listen-style local receive socket bound to host:port for
`udpin:` connection strings, and performs an outbound connect for `tcp:`
connection strings. -/
def mavutil_socket_mode (cs : String) : Option SocketMode :=
  if strStartsWith cs "udpin:" then some SocketMode.listen
  else if strStartsWith cs "tcp:" then some SocketMode.connectOut
  else none

/-- Kinds of decoded MAVLink messages, by `msg.get_type()`. -/
inductive MsgKind where
  | heartbeat
  | attitudeQuaternion
  | other (name : String)
  deriving DecidableEq, Repr

/-- The state mutated by `ConnectionWorker.run`'s receive loop:
`_connected` and `_last_heartbeat_time`. -/
structure WorkerLoopState where
  connected : Bool
  last_heartbeat_time : ℚ
  deriving DecidableEq, Repr

/-- `ConnectionWorker._heartbeat_timeout = 3.0`. -/
def HEARTBEAT_TIMEOUT : ℚ := 3

/-- One iteration of `ConnectionWorker.run`'s receive loop (stop not
requested).  `msg` is the result of `recv_match(blocking=True,
timeout=0.05)`; `tRecv` is the `time.time()` read while handling a
HEARTBEAT and `tCheck` the `time.time()` read at the liveness check of the
same iteration (`tRecv ≤ tCheck` in reality).  Returns the updated loop
state and the signals emitted, in emission order. -/
def loop_iteration (s : WorkerLoopState) (msg : Option MsgKind) (tRecv tCheck : ℚ) :
    WorkerLoopState × List Event :=
  let p :=
    match msg with
    | none => (s, ([] : List Event))
    | some k =>
        let q :=
          if k = MsgKind.heartbeat then
            let s' : WorkerLoopState := { s with last_heartbeat_time := tRecv }
            if s.connected = false then
              ({ s' with connected := true },
               [Event.linkStatusChanged true, Event.heartbeatReceived])
            else (s', [Event.heartbeatReceived])
          else (s, ([] : List Event))
        let evsQ := if k = MsgKind.attitudeQuaternion then [Event.eulerAngles] else []
        (q.1, q.2 ++ evsQ ++ [Event.messageReceived])
  if p.1.connected = true ∧ tCheck - p.1.last_heartbeat_time > HEARTBEAT_TIMEOUT then
    ({ p.1 with connected := false }, p.2 ++ [Event.linkStatusChanged false])
  else p

/-- A MAVLink COMMAND_LONG frame as constructed by pymavlink's
`mav.command_long_send(target_system, target_component, command,
confirmation, p1..p7)`. -/
structure CommandLongFrame where
  target_system : ℕ
  target_component : ℕ
  command : ℕ
  confirmation : ℕ
  p1 : ℚ
  p2 : ℚ
  p3 : ℚ
  p4 : ℚ
  p5 : ℚ
  p6 : ℚ
  p7 : ℚ
  deriving DecidableEq, Repr

namespace WorkerRec

/-- `ConnectionWorker.send_message(msg)`: returns False when `_connection`
is None; otherwise True, unless the transport send raises (caught by the
bare `except`), in which case False.  Never raises. -/
def send_message (w : WorkerRec) : Bool :=
  match w.connection with
  | none => false
  | some conn => if conn.sendFails then false else true

/-- `ConnectionWorker.send_command_long(command, p1..p7)`: calls
`command_long_send(1, 1, command, 0, p1..p7)` — target system and component
are the fixed constants 1 and 1.  Returns the boolean result together with
the frame handed to the encoder (`none` when `_connection` is None and no
frame is constructed); a transport failure is caught and reported as
False. -/
def send_command_long (w : WorkerRec) (command : ℕ)
    (p1 p2 p3 p4 p5 p6 p7 : ℚ) : Bool × Option CommandLongFrame :=
  match w.connection with
  | none => (false, none)
  | some conn =>
      let frame : CommandLongFrame :=
        ⟨1, 1, command, 0, p1, p2, p3, p4, p5, p6, p7⟩
      if conn.sendFails then (false, some frame) else (true, some frame)

end WorkerRec

namespace MavlinkManager

/-- `MavlinkManager.send_message(msg)`: forwards to the worker if one
exists, else False. -/
def send_message (m : MavlinkManager) : Bool :=
  match m.worker with
  | some w => w.send_message
  | none => false

/-- `MavlinkManager.send_command_long(command, param1..param7,
target_system=1, target_component=1)`: forwards to the worker's
`send_command_long`, passing only the command and the seven parameters —
the `target_system` and `target_component` arguments are ignored, exactly
as in the source. -/
def send_command_long (m : MavlinkManager) (command : ℕ)
    (param1 param2 param3 param4 param5 param6 param7 : ℚ)
    (target_system target_component : ℕ) : Bool × Option CommandLongFrame :=
  match m.worker with
  | some w =>
      w.send_command_long command param1 param2 param3 param4 param5 param6 param7
  | none => (false, none)

end MavlinkManager

/-- `f"{t:.6f}"`: the relative timestamp rendered with 6 decimal places,
modelled as the integer count of microseconds it displays (rounding to the
nearest microsecond). -/
def fmt6 (t : ℚ) : ℤ := round (t * 1000000)

/-- `MavlinkLogger` state: `_logging`, `_writer` (None or open),
`_start_time`, `_msg_count`, `_last_flush_time`, plus the CSV file content:
number of header rows written, the data rows written
(timestamp-in-microseconds, msg_type, fields-as-JSON-text), and how many
data rows have been durably flushed. -/
structure MavlinkLogger where
  logging : Bool
  hasWriter : Bool
  start_time : ℚ
  msg_count : ℕ
  last_flush_time : ℚ
  header_rows : ℕ
  rows : List (ℤ × String × String)
  flushed : ℕ
  deriving DecidableEq, Repr

namespace MavlinkLogger

/-- `MavlinkLogger.__init__`. -/
def init : MavlinkLogger := ⟨false, false, 0, 0, 0, 0, [], 0⟩

/-- `MavlinkLogger.start()` at wall-clock time `now`: no-op if already
logging; otherwise opens a fresh file, writes the header row
`timestamp,msg_type,fields`, records `_start_time` and `_last_flush_time`,
zeroes `_msg_count` and subscribes to all messages. -/
def start (s : MavlinkLogger) (now : ℚ) : MavlinkLogger :=
  if s.logging then s
  else
    { logging := true, hasWriter := true, start_time := now, msg_count := 0,
      last_flush_time := now, header_rows := 1, rows := [], flushed := 0 }

/-- `MavlinkLogger.stop()`: no-op if not logging; otherwise unsubscribes,
flushes and closes the file. -/
def stop (s : MavlinkLogger) : MavlinkLogger :=
  if s.logging = false then s
  else
    { s with logging := false, hasWriter := false, flushed := s.rows.length }

/-- `MavlinkLogger._on_message(msg)` at wall-clock time `now` (the source
reads `time.time()` twice within microseconds; the embedding uses one
reading for both the row timestamp and the flush check): appends one row
`[f"{t:.6f}", msg_type, fields_json]`, increments `_msg_count`, and flushes
when the count is a multiple of 100 or at least one second has passed since
the last flush. -/
def on_message (s : MavlinkLogger) (msg_type fields : String) (now : ℚ) :
    MavlinkLogger :=
  if s.logging = false ∨ s.hasWriter = false then s
  else
    let t := now - s.start_time
    let s1 :=
      { s with rows := s.rows ++ [(fmt6 t, msg_type, fields)]
               msg_count := s.msg_count + 1 }
    if s1.msg_count % 100 = 0 ∨ now - s1.last_flush_time ≥ 1 then
      { s1 with flushed := s1.rows.length, last_flush_time := now }
    else s1

/-- Delivering a list of (msg_type, fields, arrival time) messages to the
logger in order. -/
def run (s : MavlinkLogger) : List (String × String × ℚ) → MavlinkLogger
  | [] => s
  | x :: rest => run (s.on_message x.1 x.2.1 x.2.2) rest

end MavlinkLogger

/-- `math.atan2(y, x)`, embedded over the reals as the argument of the
complex number x + y·i (range (-π, π], matching atan2's convention). -/
noncomputable def atan2 (y x : ℝ) : ℝ := Complex.arg ⟨x, y⟩

/-- `math.copysign(x, s)` (for the values arising here, where s is never a
negative zero): |x| carrying the sign of s. -/
noncomputable def copysign (x s : ℝ) : ℝ := if s < 0 then -|x| else |x|

/-- `ConnectionWorker._quaternion_to_euler(q0, q1, q2, q3)`: float
arithmetic modelled over ℝ.  Returns (roll, pitch, yaw). -/
noncomputable def quaternion_to_euler (q0 q1 q2 q3 : ℝ) : ℝ × ℝ × ℝ :=
  let sinr_cosp := 2 * (q0 * q1 + q2 * q3)
  let cosr_cosp := 1 - 2 * (q1 * q1 + q2 * q2)
  let roll := atan2 sinr_cosp cosr_cosp
  let sinp := 2 * (q0 * q2 - q3 * q1)
  let pitch :=
    if |sinp| ≥ 1 then copysign (Real.pi / 2) sinp else Real.arcsin sinp
  let siny_cosp := 2 * (q0 * q3 + q1 * q2)
  let cosy_cosp := 1 - 2 * (q2 * q2 + q3 * q3)
  let yaw := atan2 siny_cosp cosy_cosp
  (roll, pitch, yaw)

/-- The formulas exactly as the claim states them, for comparison with the
code-derived `quaternion_to_euler`: roll = atan2(2(wx+yz), 1-2(x²+y²)),
pitch = asin(2(wy-zx)) when |2(wy-zx)| < 1 and otherwise
copysign(π/2, 2(wy-zx)), yaw = atan2(2(wz+xy), 1-2(y²+z²)). -/
noncomputable def euler_formula_spec (w x y z : ℝ) : ℝ × ℝ × ℝ :=
  (atan2 (2 * (w * x + y * z)) (1 - 2 * (x ^ 2 + y ^ 2)),
   if |2 * (w * y - z * x)| < 1 then Real.arcsin (2 * (w * y - z * x))
   else copysign (Real.pi / 2) (2 * (w * y - z * x)),
   atan2 (2 * (w * z + x * y)) (1 - 2 * (y ^ 2 + z ^ 2)))

namespace MavlinkManager

lemma cleanup_worker_worker_eq (m : MavlinkManager) : m.cleanup_worker.worker = none := by
  unfold cleanup_worker
  cases h : m.worker <;> simp [h]

lemma cleanup_worker_connecting (m : MavlinkManager) :
    m.cleanup_worker.connecting = m.connecting := by
  unfold cleanup_worker
  cases h : m.worker <;> simp

lemma cleanup_worker_retired_stopped (m : MavlinkManager) (h : m.RetiredStopped) :
    m.cleanup_worker.RetiredStopped := by
  unfold cleanup_worker
  cases hw : m.worker with
  | none => exact h
  | some w =>
      intro u hu
      rcases List.mem_cons.mp hu with rfl | hu
      · rfl
      · exact h u hu

lemma reachable_retired_stopped (m : MavlinkManager) (h : Reachable m) :
    m.RetiredStopped := by
  induction h with
  | init => intro w hw; simp [MavlinkManager.init] at hw
  | usb m port baud _ ih =>
      by_cases hc : m.connecting = true
      · simpa [connect_usb, hc] using ih
      · have h1 := cleanup_worker_retired_stopped m ih
        simp only [connect_usb, hc, if_false, Bool.false_eq_true] at *
        intro w hw
        exact h1 w hw
  | wifi m ip port protocol _ ih =>
      by_cases hc : m.connecting = true
      · simpa [connect_wifi, hc] using ih
      · have h1 := cleanup_worker_retired_stopped m ih
        simp only [connect_wifi, hc, if_false, Bool.false_eq_true] at *
        intro w hw
        exact h1 w hw
  | ready m success msg _ ih =>
      have h1 : ({ m with connecting := false } : MavlinkManager).RetiredStopped := ih
      by_cases hs : success = true
      · simpa [on_connection_ready, hs] using h1
      · have h2 := cleanup_worker_retired_stopped { m with connecting := false } h1
        simpa [on_connection_ready, hs] using h2
  | status m c _ ih => simpa [on_connection_status] using ih
  | disc m _ ih =>
      have h1 : ({ m with connecting := false } : MavlinkManager).RetiredStopped := ih
      have h2 := cleanup_worker_retired_stopped { m with connecting := false } h1
      simpa [disconnect] using h2
  | wupd m c _ ih =>
      unfold worker_update
      cases hw : m.worker <;> simpa using ih

lemma liveWorkers_le_one_of_retired_stopped (m : MavlinkManager)
    (h : m.RetiredStopped) : m.liveWorkers ≤ 1 := by
  unfold liveWorkers
  rw [List.countP_append]
  have h2 : m.retired.countP (fun w => !w.stopped) = 0 := by
    rw [List.countP_eq_zero]
    intro w hw
    simp [h w hw]
  rw [h2]
  cases m.worker with
  | none => simp
  | some w =>
      simp only [Option.toList, List.countP_cons]
      split <;> simp

end MavlinkManager

/-- C1: in every manager state with `_connecting = true`, `connect_usb` and
`connect_wifi` are rejected: they emit only the "Connection in progress"
error report, create no worker and leave the whole manager state (including
`_worker`, `_connecting`, `_connected`) unchanged; and every manager state
reachable from `__init__` owns at most one live (never-stopped) worker. -/
theorem C1_connect_mutual_exclusion :
    (∀ (m : MavlinkManager) (port : String) (baud : ℕ), m.connecting = true →
      m.connect_usb port baud = (m, [Event.errorOccurred "Connection in progress"])) ∧
    (∀ (m : MavlinkManager) (ip : String) (port : ℕ) (protocol : String),
      m.connecting = true →
      m.connect_wifi ip port protocol = (m, [Event.errorOccurred "Connection in progress"])) ∧
    (∀ m : MavlinkManager, MavlinkManager.Reachable m → m.liveWorkers ≤ 1) := by
  refine ⟨?_, ?_, ?_⟩
  · intro m port baud h
    simp [MavlinkManager.connect_usb, h]
  · intro m ip port protocol h
    simp [MavlinkManager.connect_wifi, h]
  · intro m h
    exact MavlinkManager.liveWorkers_le_one_of_retired_stopped m
      (MavlinkManager.reachable_retired_stopped m h)

/-- Witness for C1 at the concrete state reached by one successful
`connect_usb` from the initial state (which has `_connecting = true`). -/
theorem C1_connect_mutual_exclusion_witness :
    ((MavlinkManager.init.connect_usb "/dev/ttyACM0" 57600).1.connecting = true) ∧
    ((MavlinkManager.init.connect_usb "/dev/ttyACM0" 57600).1.connect_wifi
        "0.0.0.0" 14550 "udp"
      = ((MavlinkManager.init.connect_usb "/dev/ttyACM0" 57600).1,
         [Event.errorOccurred "Connection in progress"])) ∧
    (MavlinkManager.init.connect_usb "/dev/ttyACM0" 57600).1.liveWorkers ≤ 1 :=
  ⟨rfl,
   C1_connect_mutual_exclusion.2.1 _ "0.0.0.0" 14550 "udp" rfl,
   C1_connect_mutual_exclusion.2.2 _
     (MavlinkManager.Reachable.usb _ "/dev/ttyACM0" 57600 MavlinkManager.Reachable.init)⟩

/-- C6 counterexample: on the freshly initialised idle manager (never
connected, no worker), the first `disconnect()` call already emits
`LinkStatusChanged(false)`, and an immediate second call emits another one —
refuting "the second and later calls emit no additional
LinkStatusChanged(false) beyond the first meaningful connected→disconnected
transition" (there is no meaningful transition here at all). -/
theorem C6_counterexample :
    MavlinkManager.init.connected = false ∧
    MavlinkManager.init.worker = none ∧
    (MavlinkManager.init.disconnect).2 = [Event.linkStatusChanged false] ∧
    ((MavlinkManager.init.disconnect).1.disconnect).2
      = [Event.linkStatusChanged false] :=
  ⟨rfl, rfl, rfl, rfl⟩

/-- C6 (amended): `disconnect()` is idempotent on the manager state and never
errors — after any call `_connecting = false`, `_connected = false` and there
is no worker, and a second call leaves the state unchanged — but every call,
including on an already-idle manager, unconditionally emits exactly one
`LinkStatusChanged(false)`, so repeated calls do emit duplicate
`LinkStatusChanged(false)` events. -/
theorem C6_disconnect_idempotent_on_state (m : MavlinkManager) :
    m.disconnect.1.connecting = false ∧
    m.disconnect.1.connected = false ∧
    m.disconnect.1.worker = none ∧
    m.disconnect.1.disconnect.1 = m.disconnect.1 ∧
    m.disconnect.2 = [Event.linkStatusChanged false] ∧
    (∀ s, Event.errorOccurred s ∉ m.disconnect.2) := by
  unfold MavlinkManager.disconnect MavlinkManager.cleanup_worker
  cases hw : m.worker <;> simp [hw]

/-- C9 counterexample: a serial connect with no baud rate supplied creates
the worker at the Python default baud 115200, not 921600 as the claim
states. -/
theorem C9_counterexample :
    ((MavlinkManager.init.connect_usb_default "/dev/ttyACM0").1.worker.map
      fun w => w.conf.baudrate) = some 115200 ∧ (115200 : ℕ) ≠ 921600 :=
  ⟨rfl, by decide⟩

/-- C9 (amended): when no baud rate is supplied to `connect_usb` the
connection is opened at the default baud 115200 (921600 is only the GUI
combo-box default, not this API default); when no port is supplied to
`connect_wifi` the default port 14550 is used; a UDP protocol produces a
`udpin:` listen-style (local bind) connection string and a TCP protocol an
outbound `tcp:` connect string. -/
theorem C9_connection_defaults (m : MavlinkManager) (h : m.connecting = false)
    (port ip : String) :
    ((m.connect_usb_default port).1.worker.map fun w => w.conf.baudrate)
        = some 115200 ∧
    MavlinkManager.WIFI_DEFAULT_PORT = 14550 ∧
    toString MavlinkManager.WIFI_DEFAULT_PORT = "14550" ∧
    ((m.connect_wifi_default_port ip "udp").1.worker.map
        fun w => w.conf.connection_string)
      = some ("udpin:" ++ ip ++ ":" ++ toString MavlinkManager.WIFI_DEFAULT_PORT) ∧
    ((m.connect_wifi_default_port ip "tcp").1.worker.map
        fun w => w.conf.connection_string)
      = some ("tcp:" ++ ip ++ ":" ++ toString MavlinkManager.WIFI_DEFAULT_PORT) ∧
    ((m.connect_wifi_default_port "0.0.0.0" "udp").1.worker.map
        fun w => mavutil_socket_mode w.conf.connection_string)
      = some (some SocketMode.listen) ∧
    ((m.connect_wifi_default_port "0.0.0.0" "tcp").1.worker.map
        fun w => mavutil_socket_mode w.conf.connection_string)
      = some (some SocketMode.connectOut) := by
  have hu : strLower "udp" = "udp" := by decide
  have ht : (strLower "tcp" = "udp") = False := by simp; decide
  have hns : m.connecting ≠ true := by simp [h]
  refine ⟨?_, rfl, by decide, ?_, ?_, ?_, ?_⟩ <;>
    simp [MavlinkManager.connect_usb_default, MavlinkManager.connect_usb,
      MavlinkManager.connect_wifi_default_port, MavlinkManager.connect_wifi,
      MavlinkManager.USB_DEFAULT_BAUD, MavlinkManager.WIFI_DEFAULT_PORT,
      hns, hu, ht, WorkerRec.mk0] <;> decide

/-- Witness for C9 (amended) at the initial manager state. -/
theorem C9_connection_defaults_witness :
    MavlinkManager.init.connecting = false ∧
    (((MavlinkManager.init.connect_usb_default "/dev/ttyACM0").1.worker.map
        fun w => w.conf.baudrate) = some 115200) :=
  ⟨rfl, (C9_connection_defaults MavlinkManager.init rfl "/dev/ttyACM0" "192.168.1.1").1⟩

/-- C2: in the receive loop, (a) the first HEARTBEAT while not-connected sets
`_connected := true` and emits `LinkStatusChanged(true)` exactly once (then
`heartbeat_received` and `message_received`); (b) a HEARTBEAT while already
connected emits no further `LinkStatusChanged`; (c) while connected, an
iteration observing elapsed time since the last heartbeat of at most 3.0 s
leaves the flag true and emits nothing — never an earlier disconnect; (d)
once connected, the first iteration observing elapsed time strictly greater
than 3.0 s sets the flag false and emits `LinkStatusChanged(false)` exactly
once; (e) while not connected, an empty poll emits nothing. -/
theorem C2_heartbeat_liveness :
    (∀ (s : WorkerLoopState) (tR tC : ℚ), s.connected = false → tC - tR ≤ 3 →
      loop_iteration s (some MsgKind.heartbeat) tR tC
        = (⟨true, tR⟩,
           [Event.linkStatusChanged true, Event.heartbeatReceived,
            Event.messageReceived])) ∧
    (∀ (s : WorkerLoopState) (tR tC : ℚ), s.connected = true → tC - tR ≤ 3 →
      loop_iteration s (some MsgKind.heartbeat) tR tC
        = (⟨true, tR⟩, [Event.heartbeatReceived, Event.messageReceived])) ∧
    (∀ (s : WorkerLoopState) (tR tC : ℚ), s.connected = true →
      tC - s.last_heartbeat_time ≤ 3 →
      loop_iteration s none tR tC = (s, [])) ∧
    (∀ (s : WorkerLoopState) (tR tC : ℚ), s.connected = true →
      tC - s.last_heartbeat_time > 3 →
      loop_iteration s none tR tC
        = ({ s with connected := false }, [Event.linkStatusChanged false])) ∧
    (∀ (s : WorkerLoopState) (tR tC : ℚ), s.connected = false →
      loop_iteration s none tR tC = (s, [])) := by
  refine ⟨?_, ?_, ?_, ?_, ?_⟩
  · intro s tR tC hc ht
    simp [loop_iteration, hc, HEARTBEAT_TIMEOUT, not_lt.mpr (by linarith : tC - tR ≤ 3)]
  · intro s tR tC hc ht
    simp [loop_iteration, hc, HEARTBEAT_TIMEOUT, not_lt.mpr (by linarith : tC - tR ≤ 3)]
  · intro s tR tC hc ht
    simp [loop_iteration, hc, HEARTBEAT_TIMEOUT, not_lt.mpr ht]
  · intro s tR tC hc ht
    simp [loop_iteration, hc, HEARTBEAT_TIMEOUT, ht]
  · intro s tR tC hc
    simp [loop_iteration, hc, HEARTBEAT_TIMEOUT]

lemma MessageBroker.publish_loop_eq (raises : ℕ → Bool) (l : List ℕ) :
    MessageBroker.publish_loop raises l = (l, l.filter (fun c => raises c)) := by
  induction l with
  | nil => rfl
  | cons c rest ih =>
      by_cases h : raises c = true <;>
        simp [MessageBroker.publish_loop, MessageBroker.call_callback, h, ih,
          List.filter_cons]

lemma MessageBroker.publish_spec (b : MessageBroker) (msg_type : String)
    (raises : ℕ → Bool) :
    MessageBroker.publish b msg_type raises
      = Except.ok
          ((b.subscribers msg_type).sort (· ≤ ·)
             ++ b.all_subscribers.sort (· ≤ ·),
           ((b.subscribers msg_type).sort (· ≤ ·)).filter (fun c => raises c)
             ++ (b.all_subscribers.sort (· ≤ ·)).filter (fun c => raises c)) := by
  simp [MessageBroker.publish, MessageBroker.publish_loop_eq]

/-- C3: with A subscribed to type "X" and B subscribed to all types,
publishing a type-"X" message invokes A then B, exactly once each
(type-specific before wildcard); publishing a message of any other type
invokes only B; after unsubscribing A, a type-"X" publish invokes only B;
and subscribing the same callback twice is a registry no-op, so it still
yields exactly one invocation per publish. -/
theorem C3_broker_fanout (A B : ℕ) (_hAB : A ≠ B) (ty : String) (hty : ty ≠ "X") :
    (MessageBroker.publish ((MessageBroker.init.subscribe "X" A).subscribe_all B)
        "X" (fun _ => false) = Except.ok ([A, B], [])) ∧
    (MessageBroker.publish ((MessageBroker.init.subscribe "X" A).subscribe_all B)
        ty (fun _ => false) = Except.ok ([B], [])) ∧
    (MessageBroker.publish
        (((MessageBroker.init.subscribe "X" A).subscribe_all B).unsubscribe "X" A)
        "X" (fun _ => false) = Except.ok ([B], [])) ∧
    (MessageBroker.publish
        (((MessageBroker.init.subscribe "X" A).subscribe "X" A).subscribe_all B)
        "X" (fun _ => false) = Except.ok ([A, B], [])) ∧
    ((MessageBroker.init.subscribe "X" A).subscribe "X" A
        = MessageBroker.init.subscribe "X" A) := by
  refine ⟨?_, ?_, ?_, ?_, ?_⟩
  · simp [MessageBroker.publish, MessageBroker.publish_loop_eq,
      MessageBroker.subscribe, MessageBroker.subscribe_all, MessageBroker.init]
  · simp [MessageBroker.publish, MessageBroker.publish_loop_eq,
      MessageBroker.subscribe, MessageBroker.subscribe_all, MessageBroker.init, hty]
  · simp [MessageBroker.publish, MessageBroker.publish_loop_eq,
      MessageBroker.subscribe, MessageBroker.subscribe_all,
      MessageBroker.unsubscribe, MessageBroker.init]
  · simp [MessageBroker.publish, MessageBroker.publish_loop_eq,
      MessageBroker.subscribe, MessageBroker.subscribe_all, MessageBroker.init]
  · refine MessageBroker.ext ?_ rfl
    funext t
    by_cases h : t = "X" <;>
      simp [MessageBroker.subscribe, MessageBroker.init, h]

/-- Witness for C3 at concrete callbacks A = 0, B = 1 and type "Y". -/
theorem C3_broker_fanout_witness :
    (0 : ℕ) ≠ 1 ∧ ("Y" : String) ≠ "X" ∧
    MessageBroker.publish ((MessageBroker.init.subscribe "X" 0).subscribe_all 1)
        "X" (fun _ => false) = Except.ok ([0, 1], []) :=
  ⟨by decide, by decide, (C3_broker_fanout 0 1 (by decide) "Y" (by decide)).1⟩

/-- C4: for every registry state, message type and callback behaviour,
`publish` invokes every registered callback — type-specific then wildcard —
even when some of them raise, logs exactly the raising ones, and returns
normally (`Except.ok`), never propagating an exception to the publisher. -/
theorem C4_subscriber_isolation (b : MessageBroker) (msg_type : String)
    (raises : ℕ → Bool) :
    MessageBroker.publish b msg_type raises
      = Except.ok
          ((b.subscribers msg_type).sort (· ≤ ·)
             ++ b.all_subscribers.sort (· ≤ ·),
           ((b.subscribers msg_type).sort (· ≤ ·)).filter (fun c => raises c)
             ++ (b.all_subscribers.sort (· ≤ ·)).filter (fun c => raises c)) :=
  MessageBroker.publish_spec b msg_type raises

/-- C10: `unsubscribe_all(c)` removes c from the wildcard set and from every
per-type set, so no subsequent publish of any message type invokes c. -/
theorem C10_unsubscribe_all_removes_everywhere (b : MessageBroker) (c : ℕ)
    (ty : String) (raises : ℕ → Bool) :
    (b.unsubscribe_all c).all_subscribers = b.all_subscribers.erase c ∧
    (b.unsubscribe_all c).subscribers ty = (b.subscribers ty).erase c ∧
    ((MessageBroker.publish (b.unsubscribe_all c) ty raises).toOption.map
        (fun r => decide (c ∈ r.1))) = some false := by
  refine ⟨rfl, rfl, ?_⟩
  rw [MessageBroker.publish_spec]
  simp only [MessageBroker.unsubscribe_all, Except.toOption, Option.map_some]
  simp [Finset.mem_sort]

/-- C7: the send paths never raise and always yield a boolean — False when
no worker or no transport connection exists and when the transport send
fails, True on success — and every COMMAND_LONG frame ever produced targets
system id 1 and component id 1, for all parameter values, including
whatever `target_system`/`target_component` arguments are passed to
`MavlinkManager.send_command_long` (the source ignores them). -/
theorem C7_send_returns_bool_and_targets_1_1 :
    (∀ w : WorkerRec, w.connection = none → w.send_message = false) ∧
    (∀ (w : WorkerRec) (conn : Conn), w.connection = some conn →
      w.send_message = !conn.sendFails) ∧
    (∀ m : MavlinkManager, m.worker = none → m.send_message = false) ∧
    (∀ (w : WorkerRec) (cmd : ℕ) (p1 p2 p3 p4 p5 p6 p7 : ℚ),
      w.connection = none →
      w.send_command_long cmd p1 p2 p3 p4 p5 p6 p7 = (false, none)) ∧
    (∀ (w : WorkerRec) (conn : Conn) (cmd : ℕ) (p1 p2 p3 p4 p5 p6 p7 : ℚ),
      w.connection = some conn →
      (w.send_command_long cmd p1 p2 p3 p4 p5 p6 p7).1 = !conn.sendFails) ∧
    (∀ (w : WorkerRec) (cmd : ℕ) (p1 p2 p3 p4 p5 p6 p7 : ℚ)
        (frame : CommandLongFrame),
      (w.send_command_long cmd p1 p2 p3 p4 p5 p6 p7).2 = some frame →
      frame.target_system = 1 ∧ frame.target_component = 1) ∧
    (∀ (m : MavlinkManager) (cmd : ℕ) (p1 p2 p3 p4 p5 p6 p7 : ℚ)
        (ts tc : ℕ) (frame : CommandLongFrame),
      (m.send_command_long cmd p1 p2 p3 p4 p5 p6 p7 ts tc).2 = some frame →
      frame.target_system = 1 ∧ frame.target_component = 1) ∧
    (∀ (m : MavlinkManager) (cmd : ℕ) (p1 p2 p3 p4 p5 p6 p7 : ℚ) (ts tc : ℕ),
      m.worker = none →
      m.send_command_long cmd p1 p2 p3 p4 p5 p6 p7 ts tc = (false, none)) := by
  refine ⟨?_, ?_, ?_, ?_, ?_, ?_, ?_, ?_⟩
  · intro w h; simp [WorkerRec.send_message, h]
  · intro w conn h
    cases hf : conn.sendFails <;> simp [WorkerRec.send_message, h, hf]
  · intro m h; simp [MavlinkManager.send_message, h]
  · intro w cmd p1 p2 p3 p4 p5 p6 p7 h
    simp [WorkerRec.send_command_long, h]
  · intro w conn cmd p1 p2 p3 p4 p5 p6 p7 h
    cases hf : conn.sendFails <;> simp [WorkerRec.send_command_long, h, hf]
  · intro w cmd p1 p2 p3 p4 p5 p6 p7 frame h
    cases hc : w.connection with
    | none => simp [WorkerRec.send_command_long, hc] at h
    | some conn =>
        cases hf : conn.sendFails <;>
          · simp [WorkerRec.send_command_long, hc, hf] at h
            simp [← h]
  · intro m cmd p1 p2 p3 p4 p5 p6 p7 ts tc frame h
    cases hw : m.worker with
    | none => simp [MavlinkManager.send_command_long, hw] at h
    | some w =>
        simp only [MavlinkManager.send_command_long, hw] at h
        cases hc : w.connection with
        | none => simp [WorkerRec.send_command_long, hc] at h
        | some conn =>
            cases hf : conn.sendFails <;>
              · simp [WorkerRec.send_command_long, hc, hf] at h
                simp [← h]
  · intro m cmd p1 p2 p3 p4 p5 p6 p7 ts tc h
    simp [MavlinkManager.send_command_long, h]

/-- Witness for C7 at a concrete worker with a live, failure-free
transport and a concrete frame. -/
theorem C7_send_witness :
    ((⟨⟨"/dev/ttyACM0", true, 115200⟩, false, some ⟨false⟩⟩ : WorkerRec).connection
        = some ⟨false⟩) ∧
    ((⟨⟨"/dev/ttyACM0", true, 115200⟩, false, some ⟨false⟩⟩ : WorkerRec).send_command_long
        400 1 0 0 0 0 0 0).2 = some ⟨1, 1, 400, 0, 1, 0, 0, 0, 0, 0, 0⟩ ∧
    (⟨1, 1, 400, 0, 1, 0, 0, 0, 0, 0, 0⟩ : CommandLongFrame).target_system = 1 ∧
    (⟨1, 1, 400, 0, 1, 0, 0, 0, 0, 0, 0⟩ : CommandLongFrame).target_component = 1 :=
  ⟨rfl, rfl,
   C7_send_returns_bool_and_targets_1_1.2.2.2.2.2.1
     ⟨⟨"/dev/ttyACM0", true, 115200⟩, false, some ⟨false⟩⟩ 400 1 0 0 0 0 0 0 _ rfl⟩

lemma fmt6_mono {s t : ℚ} (h : s ≤ t) : fmt6 s ≤ fmt6 t := by
  unfold fmt6
  rw [round_eq, round_eq]
  exact Int.floor_mono (by linarith)

lemma MavlinkLogger.on_message_active (s : MavlinkLogger) (mt f : String)
    (now : ℚ) (hl : s.logging = true) (hw : s.hasWriter = true) :
    (s.on_message mt f now).rows
        = s.rows ++ [(fmt6 (now - s.start_time), mt, f)] ∧
    (s.on_message mt f now).msg_count = s.msg_count + 1 ∧
    (s.on_message mt f now).logging = true ∧
    (s.on_message mt f now).hasWriter = true ∧
    (s.on_message mt f now).start_time = s.start_time ∧
    (s.on_message mt f now).header_rows = s.header_rows := by
  simp only [MavlinkLogger.on_message, hl, hw]
  rw [if_neg (by simp)]
  split <;> simp

lemma MavlinkLogger.run_spec (msgs : List (String × String × ℚ)) :
    ∀ s : MavlinkLogger, s.logging = true → s.hasWriter = true →
    (MavlinkLogger.run s msgs).rows
        = s.rows ++ msgs.map (fun x => (fmt6 (x.2.2 - s.start_time), x.1, x.2.1)) ∧
    (MavlinkLogger.run s msgs).logging = true ∧
    (MavlinkLogger.run s msgs).hasWriter = true ∧
    (MavlinkLogger.run s msgs).start_time = s.start_time ∧
    (MavlinkLogger.run s msgs).header_rows = s.header_rows := by
  induction msgs with
  | nil => intro s hl hw; exact ⟨by simp [MavlinkLogger.run], hl, hw, rfl, rfl⟩
  | cons x rest ih =>
      intro s hl hw
      obtain ⟨h1r, _, h1l, h1w, h1t, h1h⟩ :=
        MavlinkLogger.on_message_active s x.1 x.2.1 x.2.2 hl hw
      obtain ⟨ihr, ihl, ihw, iht, ihh⟩ := ih (s.on_message x.1 x.2.1 x.2.2) h1l h1w
      have hrun : MavlinkLogger.run s (x :: rest)
          = MavlinkLogger.run (s.on_message x.1 x.2.1 x.2.2) rest := rfl
      rw [hrun]
      refine ⟨?_, ihl, ihw, by rw [iht, h1t], by rw [ihh, h1h]⟩
      rw [ihr, h1r, h1t]
      simp

/-- C8: while the logger is active, (a) each delivered message appends
exactly one data row `[timestamp to 6 decimal places, message type,
fields as JSON text]` and increments the count; (b) a flush happens
whenever the new count is a multiple of 100 or at least one second has
passed since the last flush, and otherwise the flushed prefix is
unchanged; (c) starting, delivering messages with non-decreasing arrival
times, then stopping yields a file with exactly one header row plus one
data row per message, a monotonically non-decreasing timestamp column, and
everything flushed. -/
theorem C8_logger_rows_and_flush :
    (∀ (s : MavlinkLogger) (mt f : String) (now : ℚ),
      s.logging = true → s.hasWriter = true →
      (s.on_message mt f now).rows
          = s.rows ++ [(fmt6 (now - s.start_time), mt, f)] ∧
      (s.on_message mt f now).msg_count = s.msg_count + 1) ∧
    (∀ (s : MavlinkLogger) (mt f : String) (now : ℚ),
      s.logging = true → s.hasWriter = true →
      (((s.msg_count + 1) % 100 = 0 ∨ now - s.last_flush_time ≥ 1) →
        (s.on_message mt f now).flushed = (s.on_message mt f now).rows.length) ∧
      (¬((s.msg_count + 1) % 100 = 0 ∨ now - s.last_flush_time ≥ 1) →
        (s.on_message mt f now).flushed = s.flushed)) ∧
    (∀ (t0 : ℚ) (msgs : List (String × String × ℚ)),
      List.Chain' (fun x y => x.2.2 ≤ y.2.2) msgs →
      ((MavlinkLogger.init.start t0).run msgs).stop.header_rows = 1 ∧
      ((MavlinkLogger.init.start t0).run msgs).stop.rows.length = msgs.length ∧
      List.Chain' (· ≤ ·)
        (((MavlinkLogger.init.start t0).run msgs).stop.rows.map (fun r => r.1)) ∧
      ((MavlinkLogger.init.start t0).run msgs).stop.flushed = msgs.length) := by
  refine ⟨?_, ?_, ?_⟩
  · intro s mt f now hl hw
    obtain ⟨h1, h2, _⟩ := MavlinkLogger.on_message_active s mt f now hl hw
    exact ⟨h1, h2⟩
  · intro s mt f now hl hw
    constructor
    · intro hcond
      simp only [MavlinkLogger.on_message, hl, hw]
      simp only [Bool.true_eq_false, or_self, if_false]
      rw [if_pos hcond]
    · intro hcond
      simp only [MavlinkLogger.on_message, hl, hw]
      simp only [Bool.true_eq_false, or_self, if_false]
      rw [if_neg hcond]
  · intro t0 msgs hchain
    have hstart : MavlinkLogger.init.start t0
        = ⟨true, true, t0, 0, t0, 1, [], 0⟩ := rfl
    obtain ⟨hrows, hlog, _, _, hhdr⟩ :=
      MavlinkLogger.run_spec msgs (MavlinkLogger.init.start t0) rfl rfl
    have hsr : ((MavlinkLogger.init.start t0).run msgs).stop.rows
        = ((MavlinkLogger.init.start t0).run msgs).rows := by
      simp [MavlinkLogger.stop, hlog]
    have hsh : ((MavlinkLogger.init.start t0).run msgs).stop.header_rows
        = ((MavlinkLogger.init.start t0).run msgs).header_rows := by
      simp [MavlinkLogger.stop, hlog]
    have hsf : ((MavlinkLogger.init.start t0).run msgs).stop.flushed
        = ((MavlinkLogger.init.start t0).run msgs).rows.length := by
      simp [MavlinkLogger.stop, hlog]
    have hinit_rows : (MavlinkLogger.init.start t0).rows = [] := rfl
    have hinit_hdr : (MavlinkLogger.init.start t0).header_rows = 1 := rfl
    have hinit_st : (MavlinkLogger.init.start t0).start_time = t0 := rfl
    simp only [hinit_rows, hinit_st, List.nil_append] at hrows
    refine ⟨?_, ?_, ?_, ?_⟩
    · rw [hsh, hhdr, hinit_hdr]
    · rw [hsr, hrows]; simp
    · rw [hsr, hrows]
      simp only [List.map_map]
      rw [List.chain'_map]
      exact hchain.imp (fun a b hab => fmt6_mono (by linarith))
    · rw [hsf, hrows]; simp

/-- Witness for C8: 250 identical heartbeat messages delivered at one
instant yield exactly 250 data rows. -/
theorem C8_logger_witness :
    List.Chain' (fun (x y : String × String × ℚ) => x.2.2 ≤ y.2.2)
      (List.replicate 250 ("HEARTBEAT", "autopilot: 3", (5 : ℚ))) ∧
    ((MavlinkLogger.init.start 0).run
        (List.replicate 250 ("HEARTBEAT", "autopilot: 3", (5 : ℚ)))).stop.rows.length
      = 250 :=
  ⟨List.chain'_replicate_of_rel 250 le_rfl,
   by
     have h := (C8_logger_rows_and_flush.2.2 0
       (List.replicate 250 ("HEARTBEAT", "autopilot: 3", (5 : ℚ)))
       (List.chain'_replicate_of_rel 250 le_rfl)).2.1
     exact h.trans (List.length_replicate _ _)⟩

/-- Witness for C2 at concrete loop states and times. -/
theorem C2_heartbeat_liveness_witness :
    ((false : Bool) = false ∧ (1 : ℚ) - 1 ≤ 3 ∧
      loop_iteration ⟨false, 0⟩ (some MsgKind.heartbeat) 1 1
        = (⟨true, 1⟩,
           [Event.linkStatusChanged true, Event.heartbeatReceived,
            Event.messageReceived])) ∧
    ((true : Bool) = true ∧ (5 : ℚ) - 1 > 3 ∧
      loop_iteration ⟨true, 1⟩ none 5 5
        = (⟨false, 1⟩, [Event.linkStatusChanged false])) :=
  ⟨⟨rfl, by norm_num, C2_heartbeat_liveness.1 ⟨false, 0⟩ 1 1 rfl (by norm_num)⟩,
   ⟨rfl, by norm_num,
    C2_heartbeat_liveness.2.2.2.1 ⟨true, 1⟩ 5 5 rfl (by norm_num)⟩⟩

lemma atan2_zero_one : atan2 0 1 = 0 := by
  unfold atan2
  have h : (⟨1, 0⟩ : ℂ) = 1 := by
    apply Complex.ext <;> simp
  rw [h, Complex.arg_one]

lemma atan2_one_zero : atan2 1 0 = Real.pi / 2 := by
  unfold atan2
  have h : (⟨0, 1⟩ : ℂ) = Complex.I := by
    apply Complex.ext <;> simp
  rw [h, Complex.arg_I]

/-- C5: `_quaternion_to_euler` computes exactly the claimed formulas —
roll = atan2(2(wx+yz), 1-2(x²+y²)), yaw = atan2(2(wz+xy), 1-2(y²+z²)),
pitch = asin(2(wy-zx)) when |2(wy-zx)| < 1 and otherwise
copysign(π/2, 2(wy-zx)); the identity quaternion yields (0, 0, 0); the pure
90° yaw quaternion (√2/2, 0, 0, √2/2) yields roll = pitch = 0 and
yaw = π/2; and whenever the pitch argument 2(wy-zx) is ≥ 1 the pitch is
+π/2 (the clamp-not-NaN policy), with no exception possible. -/
theorem C5_quaternion_to_euler :
    (∀ w x y z : ℝ, quaternion_to_euler w x y z = euler_formula_spec w x y z) ∧
    quaternion_to_euler 1 0 0 0 = (0, 0, 0) ∧
    quaternion_to_euler (Real.sqrt 2 / 2) 0 0 (Real.sqrt 2 / 2)
      = (0, 0, Real.pi / 2) ∧
    (∀ w x y z : ℝ, 2 * (w * y - z * x) ≥ 1 →
      (quaternion_to_euler w x y z).2.1 = Real.pi / 2) := by
  refine ⟨?_, ?_, ?_, ?_⟩
  · intro w x y z
    simp only [quaternion_to_euler, euler_formula_spec, pow_two]
    refine congrArg₂ Prod.mk rfl (congrArg₂ Prod.mk ?_ rfl)
    by_cases hlt : |2 * (w * y - z * x)| < 1
    · rw [if_neg (not_le.mpr hlt), if_pos hlt]
    · rw [if_pos (ge_iff_le.mpr (not_lt.mp hlt)), if_neg hlt]
  · simp only [quaternion_to_euler]
    norm_num [atan2_zero_one, Real.arcsin_zero]
  · have hss : Real.sqrt 2 / 2 * (Real.sqrt 2 / 2) = 1 / 2 := by
      rw [div_mul_div_comm, Real.mul_self_sqrt (by norm_num : (0:ℝ) ≤ 2)]
      norm_num
    simp only [quaternion_to_euler]
    rw [hss]
    norm_num [atan2_zero_one, atan2_one_zero, Real.arcsin_zero]
  · intro w x y z h
    have habs : |2 * (w * y - z * x)| ≥ 1 := by
      rw [abs_of_nonneg (by linarith)]
      exact h
    simp only [quaternion_to_euler]
    rw [if_pos habs]
    unfold copysign
    rw [if_neg (by linarith), abs_of_nonneg (by positivity)]

/-- Witness for C5's gimbal-lock clamp at the concrete quaternion
(1, 0, 1, 0), whose pitch argument is 2 ≥ 1. -/
theorem C5_quaternion_to_euler_witness :
    2 * ((1:ℝ) * 1 - 0 * 0) ≥ 1 ∧
    (quaternion_to_euler 1 0 1 0).2.1 = Real.pi / 2 :=
  ⟨by norm_num, C5_quaternion_to_euler.2.2.2 1 0 1 0 (by norm_num)⟩
